import Mathlib

/-!
Verification of the StatsFutBR dashboard core (`src/app.py`): the
filter/sort pipeline over the fetched player list, the metric projection
of a player's statistics bag, and the two chart-data builders
(`criar_grafico_radar`, `criar_grafico_comparativo`).

Modelling conventions:
* Python strings are modelled as `List Char` (`Str`); Python string
  comparison is lexicographic on characters, `s.lower()` maps each
  character, and `a in b` is substring containment.
* Statistics values coming from the backend JSON are modelled by
  `StatValue`: either a numeric value (anything `float(...)` accepts,
  as a rational) or a non-numeric payload on which `float(...)` raises.
* Fallible Python code (a `float(...)` call that may raise `ValueError`)
  is modelled in the `Except Str` monad.
* `list.sort(key=K, reverse=rev)` is a stable sort by `K`; it is modelled
  by `List.insertionSort` with the corresponding relation (a stable sort's
  output is determined by the key order and stability alone).
-/

namespace StatFut

/-- Python strings, modelled as their character sequence. -/
abbrev Str : Type := List Char

/-- Python `s.lower()`: lowercase each character. -/
def pyLower (s : Str) : Str := s.map Char.toLower

/-- Python `nd in hay` on strings: substring containment. -/
def pyIn (nd hay : Str) : Bool := decide (nd <:+: hay)

/-- One value of the `estatisticas` JSON mapping: either numeric-coercible
(`float(v)` succeeds, value as a rational) or non-numeric (`float(v)`
raises `ValueError` carrying a message). -/
inductive StatValue : Type where
  | num (q : ℚ)
  | nonNumeric (s : Str)
  deriving DecidableEq

/-- Python `float(v)` on a statistics value: returns the number, or raises
on a non-numeric value. -/
def pyFloat : StatValue → Except Str ℚ
  | .num q => .ok q
  | .nonNumeric s => .error s

/-- The statistics bag of one player: the `estatisticas` JSON object,
a mapping from metric key to value (keys unique, as in a Python dict). -/
abbrev Estatisticas : Type := List (String × StatValue)

/-- Python `est.get(k, 0)` on the statistics bag, as used by `app.py`
everywhere a metric is read. -/
def statGet (est : Estatisticas) (k : String) : StatValue :=
  (est.lookup k).getD (.num 0)

/-- One player record as returned by `GET /jogadores` (`app.py` accesses
the fields below; display-only fields default so they can be omitted in
examples). -/
structure Jogador where
  id : ℕ
  nome : Str
  time : Str
  posicao : Str
  estatisticas : Estatisticas
  idade : ℕ := 0
  nacionalidade : Str := []
  pedominante : Str := []
  altura : Str := []
  peso : Str := []
  agencia : Str := []
  gols : ℕ := 0
  assistencias : ℕ := 0
  deriving DecidableEq

/-- Python `float(x[ESTATISTICAS].get(k, 0))` (with the statistics field
selected) — the metric read used by the sort keys (`app.py` lines
199-204) and by the chart builders. -/
def chaveStat (k : String) (j : Jogador) : Except Str ℚ :=
  pyFloat (statGet j.estatisticas k)

/-- Total companion of `chaveStat`: the value when coercion succeeds,
`0` otherwise (used only after coercion success has been checked). -/
def chaveStatD (k : String) (j : Jogador) : ℚ :=
  (chaveStat k j).toOption.getD 0

/-- Name filter, `app.py` lines 183-184: when the search term is non-empty
(Python truthiness), keep players whose lowercased name contains the
lowercased search term as a substring. -/
def filtroNome (search : Str) (js : List Jogador) : List Jogador :=
  if search.isEmpty then js
  else js.filter (fun j => pyIn (pyLower search) (pyLower j.nome))

/-- Team filter, `app.py` lines 186-187: keep players whose team equals
the selection, unless the sentinel "Todos" is selected. -/
def filtroTime (sel : Str) (js : List Jogador) : List Jogador :=
  if sel = "Todos".toList then js
  else js.filter (fun j => decide (j.time = sel))

/-- Position filter, `app.py` lines 189-190: keep players whose position
equals the selection, unless the sentinel "Todas" is selected. -/
def filtroPosicao (sel : Str) (js : List Jogador) : List Jogador :=
  if sel = "Todas".toList then js
  else js.filter (fun j => decide (j.posicao = sel))

/-- Python `list.sort(key=K, reverse=rev)`: a stable sort by the key `K`,
ascending when `rev = false`, descending when `rev = true` (equal keys
keep their original relative order in both modes). -/
def pySortKey {α β : Type} [LinearOrder β] (K : α → β) (rev : Bool)
    (l : List α) : List α :=
  if rev then l.insertionSort (fun a b => K b ≤ K a)
  else l.insertionSort (fun a b => K a ≤ K b)

/-- The six entries of the "Ordenar por" selector, `app.py` line 172. -/
inductive Ordenacao : Type where
  | nome | time | posicao | gols | assistencias | partidas
  deriving DecidableEq

/-- Sort step, `app.py` lines 193-204.  Name/Team/Position sort by string
keys (tuples compare lexicographically in Python); Goals/Assists/Matches
sort by `float` of the statistics value of the key (default 0),
descending, which first
evaluates the key on every element and raises if any value is
non-numeric. -/
def sortJogadores : Ordenacao → List Jogador → Except Str (List Jogador)
  | .nome, js => .ok (pySortKey (fun j => j.nome) false js)
  | .time, js => .ok (pySortKey (fun j => toLex (j.time, j.nome)) false js)
  | .posicao, js => .ok (pySortKey (fun j => toLex (j.posicao, j.nome)) false js)
  | .gols, js =>
      (js.mapM (chaveStat "golsper90")).map fun _ =>
        pySortKey (chaveStatD "golsper90") true js
  | .assistencias, js =>
      (js.mapM (chaveStat "assistper90")).map fun _ =>
        pySortKey (chaveStatD "assistper90") true js
  | .partidas, js =>
      (js.mapM (chaveStat "partidas")).map fun _ =>
        pySortKey (chaveStatD "partidas") true js

/-- The whole filter/sort pipeline of `main`, `app.py` lines 183-204:
name filter, then team filter, then position filter, then sort. -/
def pipeline (search time posicao : Str) (ord : Ordenacao)
    (js : List Jogador) : Except Str (List Jogador) :=
  sortJogadores ord (filtroPosicao posicao (filtroTime time (filtroNome search js)))

/-- Python `max(...)` over a non-empty list (first element as base). -/
def pyMax : List ℚ → ℚ
  | [] => 0
  | x :: xs => xs.foldl max x

/-- The metric projection of `criar_grafico_radar`, `app.py` lines 89-96:
the six fixed radar metrics, each read with `.get(key, 0)` and coerced by
`float`, evaluated in source order. -/
def radarMetrics (est : Estatisticas) : Except Str (List (String × ℚ)) := do
  let g ← pyFloat (statGet est "golsper90")
  let a ← pyFloat (statGet est "assistper90")
  let x1 ← pyFloat (statGet est "xg")
  let x2 ← pyFloat (statGet est "xag")
  let c ← pyFloat (statGet est "prgc")
  let p ← pyFloat (statGet est "prgp")
  .ok [("Gols/90", g), ("Assist/90", a), ("xG", x1), ("xAG", x2),
       ("PRGC", c), ("PRGP", p)]

/-- The data content of the radar figure built at `app.py` lines 98-116:
the polar series values `r`, the category labels `theta`, and the radial
axis range. -/
structure FigRadar where
  r : List ℚ
  theta : List String
  faixa : ℚ × ℚ
  deriving DecidableEq

/-- Function `criar_grafico_radar`, `app.py` lines 83-118: `None` on an
empty (falsy) statistics bag, otherwise the radar series over the six projected
metrics with radial range `[0, max(values) * 1.2]`. -/
def criar_grafico_radar (est : Estatisticas) (_nome : Str) :
    Except Str (Option FigRadar) :=
  if est.isEmpty then .ok none
  else do
    let m ← radarMetrics est
    .ok (some { r := m.map (fun kv => kv.2),
                theta := m.map (fun kv => kv.1),
                faixa := (0, pyMax (m.map (fun kv => kv.2)) * (6/5)) })

/-- One row of the comparison chart's data, `app.py` lines 129-134. -/
structure LinhaComp where
  jogador : Str
  time : Str
  posicao : Str
  valores : List (String × ℚ)
  deriving DecidableEq

/-- The row built for one peer, `app.py` lines 129-134: name, team,
position, and one `float(stats.get(m, 0))` per requested metric. -/
def linhaComp (metricas : List String) (j : Jogador) : Except Str LinhaComp := do
  let vals ← metricas.mapM (fun m => do
    let q ← pyFloat (statGet j.estatisticas m)
    pure (m, q))
  .ok { jogador := j.nome, time := j.time, posicao := j.posicao, valores := vals }

/-- Total companion of `linhaComp` (agrees with it when every metric
coercion succeeds). -/
def linhaCompD (metricas : List String) (j : Jogador) : LinhaComp :=
  { jogador := j.nome, time := j.time, posicao := j.posicao,
    valores := metricas.map (fun m => (m, chaveStatD m j)) }

/-- Function `criar_grafico_comparativo`, `app.py` lines 120-144: `None` on an
empty player list, otherwise one row per player whose id differs from the
selected player's id, and `None` if that row list is empty. -/
def criar_grafico_comparativo (atual : Jogador) (js : List Jogador)
    (metricas : List String) : Except Str (Option (List LinhaComp)) :=
  if js.isEmpty then .ok none
  else do
    let dados ← (js.filter (fun j => j.id != atual.id)).mapM (linhaComp metricas)
    .ok (if dados.isEmpty then none else some dados)

/-- The metric list passed to the comparison builder, `app.py` line 272. -/
def metricasComparacao : List String := ["golsper90", "assistper90", "xg", "xag"]

/-! ### Concrete players (the spec's scenario data, used by witnesses) -/

/-- Scenario player Ana: id 1, team A, forward, 0.5 goals per 90. -/
def ana : Jogador where
  id := 1
  nome := "Ana".toList
  time := "A".toList
  posicao := "FW".toList
  estatisticas := [("golsper90", .num (Rat.divInt 1 2))]

/-- Scenario player Bea: id 2, team B, midfielder, 1.2 goals per 90. -/
def bea : Jogador where
  id := 2
  nome := "Bea".toList
  time := "B".toList
  posicao := "MF".toList
  estatisticas := [("golsper90", .num (Rat.divInt 6 5))]

/-- A player with an empty statistics bag. -/
def dan : Jogador where
  id := 4
  nome := "Dan".toList
  time := "A".toList
  posicao := "GK".toList
  estatisticas := []

/-- A player whose `golsper90` value is present but not numeric. -/
def cid : Jogador where
  id := 3
  nome := "Cid".toList
  time := "A".toList
  posicao := "FW".toList
  estatisticas := [("golsper90", .nonNumeric "abc".toList)]

/-! ### Helper lemmas -/

@[simp]
theorem ok_bind {α β : Type} (a : α) (f : α → Except Str β) :
    (Except.ok a >>= f) = f a := rfl

@[simp]
theorem error_bind {α β : Type} (e : Str) (f : α → Except Str β) :
    ((Except.error e : Except Str α) >>= f) = .error e := rfl

@[simp]
theorem fmap_ok {α β : Type} (f : α → β) (a : α) :
    (f <$> (Except.ok a : Except Str α)) = .ok (f a) := rfl

@[simp]
theorem fmap_error {α β : Type} (f : α → β) (e : Str) :
    (f <$> (Except.error e : Except Str α)) = (.error e : Except Str β) := rfl

@[simp]
theorem isOk_ok {α : Type} (a : α) : (Except.ok a : Except Str α).isOk = true := rfl

@[simp]
theorem isOk_error {α : Type} (e : Str) :
    (Except.error e : Except Str α).isOk = false := rfl

@[simp]
theorem exmap_ok {α β : Type} (f : α → β) (a : α) :
    (Except.ok a : Except Str α).map f = .ok (f a) := rfl

@[simp]
theorem exmap_error {α β : Type} (f : α → β) (e : Str) :
    (Except.error e : Except Str α).map f = (.error e : Except Str β) := rfl

/-- A bind after a failed computation fails. -/
theorem bind_not_ok {α β : Type} {x : Except Str α} (hx : x.isOk = false)
    (f : α → Except Str β) : (x >>= f).isOk = false := by
  cases x with
  | error e => rfl
  | ok a => simp at hx

/-- Mapping over a failed computation fails. -/
theorem exceptMap_not_ok {α β : Type} {x : Except Str α} (hx : x.isOk = false)
    (f : α → β) : (x.map f).isOk = false := by
  cases x with
  | error e => rfl
  | ok a => simp at hx

theorem mapM_nil {α β : Type} (f : α → Except Str β) :
    ([] : List α).mapM f = .ok [] := rfl

theorem mapM_cons {α β : Type} (f : α → Except Str β) (a : α) (l : List α) :
    (a :: l).mapM f =
      (f a >>= fun b => l.mapM f >>= fun bs => .ok (b :: bs)) := by
  rw [List.mapM_cons]
  rfl

/-- A `mapM` over `Except` succeeds with the pointwise values when every
element succeeds. -/
theorem mapM_ok_of_forall {α β : Type} {f : α → Except Str β} {g : α → β} :
    ∀ {l : List α}, (∀ x ∈ l, f x = .ok (g x)) → l.mapM f = .ok (l.map g)
  | [], _ => rfl
  | a :: l, h => by
    have ha := h a (by simp)
    have ht := mapM_ok_of_forall (l := l) (fun x hx => h x (by simp [hx]))
    rw [mapM_cons, ha, ht]
    rfl

/-- If `mapM` over `Except` succeeds, every element succeeded. -/
theorem isOk_of_mapM_ok {α β : Type} {f : α → Except Str β} :
    ∀ {l : List α}, (l.mapM f).isOk = true → ∀ x ∈ l, (f x).isOk = true
  | [], _, x, hx => by simp at hx
  | a :: l, h, x, hx => by
    rw [mapM_cons] at h
    cases hfa : f a with
    | error e => rw [hfa] at h; simp at h
    | ok b =>
      rw [hfa, ok_bind] at h
      cases hml : l.mapM f with
      | error e => rw [hml] at h; simp at h
      | ok bs =>
        rcases List.mem_cons.mp hx with rfl | hx'
        · simp [hfa]
        · have hok : (l.mapM f).isOk = true := by rw [hml]; rfl
          exact isOk_of_mapM_ok hok x hx'

/-- If some element fails, `mapM` over `Except` does not succeed. -/
theorem mapM_not_ok {α β : Type} {f : α → Except Str β} {l : List α} {x : α}
    (hx : x ∈ l) (hf : (f x).isOk = false) : (l.mapM f).isOk = false := by
  cases h : (l.mapM f).isOk with
  | false => rfl
  | true =>
    have htrue := isOk_of_mapM_ok h x hx
    rw [htrue] at hf
    simp at hf

/-- Stability of `insertionSort`, as filter invariance: if any two
elements satisfying `p` are related by `r`, the subsequence of
`p`-elements is untouched by sorting. -/
theorem filter_insertionSort {α : Type} (r : α → α → Prop) [DecidableRel r]
    (l : List α) (p : α → Bool) (hp : ∀ a b, p a = true → p b = true → r a b) :
    (l.insertionSort r).filter p = l.filter p := by
  have hpair : (l.filter p).Pairwise r :=
    List.pairwise_of_forall_mem_list fun a ha b hb =>
      hp a b (List.of_mem_filter ha) (List.of_mem_filter hb)
  have hsub : (l.filter p).Sublist (l.insertionSort r) :=
    List.sublist_insertionSort hpair (List.filter_sublist l)
  have h2 : (l.filter p).Sublist ((l.insertionSort r).filter p) := by
    have h3 := List.Sublist.filter p hsub
    have h4 : (fun a => p a && p a) = p := funext fun a => Bool.and_self (p a)
    rwa [List.filter_filter, h4] at h3
  have hlen : ((l.insertionSort r).filter p).length = (l.filter p).length :=
    ((List.perm_insertionSort r l).filter p).length_eq
  exact (h2.eq_of_length hlen.symm).symm

/-- The stable sort is a permutation of its input. -/
theorem pySortKey_perm {α β : Type} [LinearOrder β] (K : α → β) (rev : Bool)
    (l : List α) : (pySortKey K rev l).Perm l := by
  cases rev <;> simp only [pySortKey, if_true, if_false, Bool.false_eq_true] <;>
    exact List.perm_insertionSort _ l

/-- Ascending mode sorts the keys into non-decreasing order. -/
theorem pySortKey_sorted_le {α β : Type} [LinearOrder β] (K : α → β)
    (l : List α) : (pySortKey K false l).Pairwise (fun a b => K a ≤ K b) := by
  haveI : IsTotal α (fun a b => K a ≤ K b) := ⟨fun a b => le_total (K a) (K b)⟩
  haveI : IsTrans α (fun a b => K a ≤ K b) := ⟨fun _ _ _ hab hbc => le_trans hab hbc⟩
  simpa [pySortKey] using List.sorted_insertionSort (fun a b => K a ≤ K b) l

/-- Descending mode sorts the keys into non-increasing order. -/
theorem pySortKey_sorted_ge {α β : Type} [LinearOrder β] (K : α → β)
    (l : List α) : (pySortKey K true l).Pairwise (fun a b => K b ≤ K a) := by
  haveI : IsTotal α (fun a b => K b ≤ K a) := ⟨fun a b => le_total (K b) (K a)⟩
  haveI : IsTrans α (fun a b => K b ≤ K a) := ⟨fun _ _ _ hab hbc => le_trans hbc hab⟩
  simpa [pySortKey] using List.sorted_insertionSort (fun a b => K b ≤ K a) l

/-- Stability of `pySortKey`: any subsequence of elements sharing one key
value keeps its original relative order (in both sort directions), stated
as invariance of `filter` under the sort for any predicate whose holders
all carry the same key. -/
theorem pySortKey_stable {α β : Type} [LinearOrder β] (K : α → β) (rev : Bool)
    (l : List α) (p : α → Bool)
    (hp : ∀ a b, p a = true → p b = true → K a = K b) :
    (pySortKey K rev l).filter p = l.filter p := by
  cases rev
  · simp only [pySortKey, Bool.false_eq_true, if_false]
    exact filter_insertionSort _ l _ (fun a b ha hb => (hp a b ha hb).le)
  · simp only [pySortKey, if_true]
    exact filter_insertionSort _ l _ (fun a b ha hb => (hp a b ha hb).ge)

/-- Each filter stage returns a sublist of its input. -/
theorem filtroNome_sublist (s : Str) (js : List Jogador) :
    (filtroNome s js).Sublist js := by
  unfold filtroNome
  split
  · exact List.Sublist.refl js
  · exact List.filter_sublist js

/-- The team filter returns a sublist of its input. -/
theorem filtroTime_sublist (s : Str) (js : List Jogador) :
    (filtroTime s js).Sublist js := by
  unfold filtroTime
  split
  · exact List.Sublist.refl js
  · exact List.filter_sublist js

/-- The position filter returns a sublist of its input. -/
theorem filtroPosicao_sublist (s : Str) (js : List Jogador) :
    (filtroPosicao s js).Sublist js := by
  unfold filtroPosicao
  split
  · exact List.Sublist.refl js
  · exact List.filter_sublist js

/-! ### Claims -/

/-- C1: for every player list and search string, the name filter keeps
exactly the players whose lowercased name contains the lowercased search
string as a substring (membership characterisation), and the empty search
string passes the list through unchanged. -/
theorem spec_C1 (search : Str) (js : List Jogador) :
    (∀ j, j ∈ filtroNome search js ↔
      (j ∈ js ∧ pyLower search <:+: pyLower j.nome))
    ∧ filtroNome [] js = js := by
  constructor
  · intro j
    by_cases hs : search.isEmpty
    · have hnil : search = [] := List.isEmpty_iff.mp hs
      subst hnil
      simp [filtroNome, pyLower, List.nil_infix]
    · simp [filtroNome, hs, List.mem_filter, pyIn]
  · simp [filtroNome]

/-- C1 witness: the scenario search "an" matches "Ana" case-insensitively. -/
theorem spec_C1_witness :
    (ana ∈ filtroNome "an".toList [ana, bea] ↔
      (ana ∈ [ana, bea] ∧ pyLower "an".toList <:+: pyLower ana.nome))
    ∧ filtroNome "an".toList [ana, bea] = [ana] :=
  ⟨(spec_C1 "an".toList [ana, bea]).1 ana, by decide⟩

/-- C6: the team filter and the position filter commute. -/
theorem spec_C6 (t p : Str) (js : List Jogador) :
    filtroPosicao p (filtroTime t js) = filtroTime t (filtroPosicao p js) := by
  unfold filtroTime filtroPosicao
  split_ifs <;> first
    | rfl
    | exact List.filter_comm _ _ _

/-- C7: the name filter is idempotent. -/
theorem spec_C7 (s : Str) (js : List Jogador) :
    filtroNome s (filtroNome s js) = filtroNome s js := by
  unfold filtroNome
  by_cases hs : s.isEmpty <;> simp [hs, List.filter_filter, Bool.and_self]

/-- C8: when the filters leave no player, the pipeline returns the empty
sequence successfully (no error), for every sort key. -/
theorem spec_C8 (search t p : Str) (ord : Ordenacao) (js : List Jogador)
    (h : filtroPosicao p (filtroTime t (filtroNome search js)) = []) :
    pipeline search t p ord js = .ok [] := by
  unfold pipeline
  rw [h]
  cases ord <;> rfl

/-- C8 witness: the scenario team filter "C" (a team no player has)
yields the empty sequence through the whole pipeline. -/
theorem spec_C8_witness :
    pipeline [] "C".toList "Todas".toList .nome [ana, bea] = .ok [] :=
  spec_C8 [] "C".toList "Todas".toList .nome [ana, bea] (by decide)

/-- C10: each filter stage, and the composition of all three, returns a
subsequence of its input (original relative order kept, no duplication,
no new players). -/
theorem spec_C10 (search t p : Str) (js : List Jogador) :
    (filtroNome search js).Sublist js
    ∧ (filtroTime t js).Sublist js
    ∧ (filtroPosicao p js).Sublist js
    ∧ (filtroPosicao p (filtroTime t (filtroNome search js))).Sublist js :=
  ⟨filtroNome_sublist search js, filtroTime_sublist t js,
   filtroPosicao_sublist p js,
   ((filtroPosicao_sublist p _).trans (filtroTime_sublist t _)).trans
     (filtroNome_sublist search js)⟩

/-- C4: the metric projection of an empty statistics bag yields zero for
every requested key and never fails: the radar projection yields the six
labels each with value 0, and a comparison row over any metric list gives
each metric the value 0. -/
theorem spec_C4 :
    radarMetrics [] = .ok [("Gols/90", 0), ("Assist/90", 0), ("xG", 0),
      ("xAG", 0), ("PRGC", 0), ("PRGP", 0)]
    ∧ ∀ (metricas : List String) (j : Jogador), j.estatisticas = [] →
        linhaComp metricas j =
          .ok { jogador := j.nome, time := j.time, posicao := j.posicao,
                valores := metricas.map (fun m => (m, 0)) } := by
  constructor
  · rfl
  · intro metricas j hj
    unfold linhaComp
    rw [mapM_ok_of_forall (g := fun m => ((m : String), (0 : ℚ)))
      (fun m _ => by simp [hj, statGet, pyFloat])]
    rfl

/-- C4 witness: the projection at the comparison metric list on a player
with an empty bag. -/
theorem spec_C4_witness :
    linhaComp metricasComparacao dan =
      .ok { jogador := dan.nome, time := dan.time, posicao := dan.posicao,
            valores := metricasComparacao.map (fun m => (m, 0)) } :=
  spec_C4.2 metricasComparacao dan rfl

/-- A successful radar metric projection has exactly the six fixed
labelled entries, in order. -/
theorem radarMetrics_ok_shape (est : Estatisticas)
    (h : (radarMetrics est).isOk = true) :
    ∃ g a x1 x2 c p, radarMetrics est =
      .ok [("Gols/90", g), ("Assist/90", a), ("xG", x1), ("xAG", x2),
           ("PRGC", c), ("PRGP", p)] := by
  unfold radarMetrics at h ⊢
  cases h1 : pyFloat (statGet est "golsper90") with
  | error e => rw [h1] at h; simp at h
  | ok g =>
  rw [h1] at h
  simp only [ok_bind] at h ⊢
  cases h2 : pyFloat (statGet est "assistper90") with
  | error e => rw [h2] at h; simp at h
  | ok a =>
  rw [h2] at h
  simp only [ok_bind] at h ⊢
  cases h3 : pyFloat (statGet est "xg") with
  | error e => rw [h3] at h; simp at h
  | ok x1 =>
  rw [h3] at h
  simp only [ok_bind] at h ⊢
  cases h4 : pyFloat (statGet est "xag") with
  | error e => rw [h4] at h; simp at h
  | ok x2 =>
  rw [h4] at h
  simp only [ok_bind] at h ⊢
  cases h5 : pyFloat (statGet est "prgc") with
  | error e => rw [h5] at h; simp at h
  | ok c =>
  rw [h5] at h
  simp only [ok_bind] at h ⊢
  cases h6 : pyFloat (statGet est "prgp") with
  | error e => rw [h6] at h; simp at h
  | ok p =>
  simp only [ok_bind]
  exact ⟨g, a, x1, x2, c, p, rfl⟩

/-- C5: on a non-empty statistics bag whose six radar metrics coerce, the
radar builder succeeds with equally long value and label arrays (the six
fixed metrics), radial range `[0, max(values) * 1.2]`, degenerating to
`[0, 0]` when all six values are zero. -/
theorem spec_C5 (est : Estatisticas) (nome : Str) (h1 : est ≠ [])
    (h2 : (radarMetrics est).isOk = true) :
    ∃ fig, criar_grafico_radar est nome = .ok (some fig)
      ∧ fig.r.length = fig.theta.length
      ∧ fig.theta = ["Gols/90", "Assist/90", "xG", "xAG", "PRGC", "PRGP"]
      ∧ fig.faixa = (0, pyMax fig.r * (6/5))
      ∧ ((∀ v ∈ fig.r, v = 0) → fig.faixa = (0, 0)) := by
  obtain ⟨g, a, x1, x2, c, p, hm⟩ := radarMetrics_ok_shape est h2
  have hne : est.isEmpty = false := List.isEmpty_eq_false.mpr h1
  refine ⟨{ r := [g, a, x1, x2, c, p],
            theta := ["Gols/90", "Assist/90", "xG", "xAG", "PRGC", "PRGP"],
            faixa := (0, pyMax [g, a, x1, x2, c, p] * (6/5)) },
    ?_, rfl, rfl, rfl, ?_⟩
  · unfold criar_grafico_radar
    rw [hm]
    simp [hne]
  · intro hz
    have hg := hz g (by simp)
    have ha := hz a (by simp)
    have hx1 := hz x1 (by simp)
    have hx2 := hz x2 (by simp)
    have hc := hz c (by simp)
    have hp := hz p (by simp)
    subst hg ha hx1 hx2 hc hp
    simp [pyMax]

/-- C5 witness: a one-entry bag with value 0 gives the all-zero radar. -/
theorem spec_C5_witness :
    ∃ fig, criar_grafico_radar [("xg", StatValue.num 0)] "Eva".toList =
        .ok (some fig)
      ∧ fig.r.length = fig.theta.length
      ∧ fig.theta = ["Gols/90", "Assist/90", "xG", "xAG", "PRGC", "PRGP"]
      ∧ fig.faixa = (0, pyMax fig.r * (6/5))
      ∧ ((∀ v ∈ fig.r, v = 0) → fig.faixa = (0, 0)) :=
  spec_C5 [("xg", StatValue.num 0)] "Eva".toList (by decide) (by rfl)

/-- C9: a statistic value that is present but non-numeric makes every
operation that projects it fail (radar projection, comparison rows,
statistic-keyed sorting) instead of being replaced by 0, while the 0
default applies to absent keys. -/
theorem spec_C9 (s : Str) (est : Estatisticas)
    (h : est.lookup "golsper90" = some (.nonNumeric s)) :
    (radarMetrics est).isOk = false
    ∧ (∀ (atual j : Jogador) (js : List Jogador), j ∈ js → j.id ≠ atual.id →
        j.estatisticas = est →
        (criar_grafico_comparativo atual js metricasComparacao).isOk = false)
    ∧ (∀ (js : List Jogador) (j : Jogador), j ∈ js → j.estatisticas = est →
        (sortJogadores .gols js).isOk = false)
    ∧ (∀ est' : Estatisticas, est'.lookup "golsper90" = none →
        pyFloat (statGet est' "golsper90") = .ok 0) := by
  have hsg : statGet est "golsper90" = .nonNumeric s := by
    simp [statGet, h]
  refine ⟨?_, ?_, ?_, ?_⟩
  · unfold radarMetrics
    rw [hsg]
    simp [pyFloat]
  · intro atual j js hj hid hest
    unfold criar_grafico_comparativo
    have hne : js.isEmpty = false :=
      List.isEmpty_eq_false.mpr (List.ne_nil_of_mem hj)
    rw [hne]
    simp only [Bool.false_eq_true, if_false]
    apply bind_not_ok
    apply mapM_not_ok (x := j)
    · exact List.mem_filter.mpr ⟨hj, by simp [hid]⟩
    · unfold linhaComp
      apply bind_not_ok
      apply mapM_not_ok (x := "golsper90")
      · simp [metricasComparacao]
      · have hsg' : statGet j.estatisticas "golsper90" = .nonNumeric s := by
          rw [hest]; exact hsg
        simp [hsg', pyFloat]
  · intro js j hj hest
    have hcs : (chaveStat "golsper90" j).isOk = false := by
      simp [chaveStat, hest, hsg, pyFloat]
    exact exceptMap_not_ok (mapM_not_ok hj hcs) _
  · intro est' h'
    simp [statGet, h', pyFloat]

/-- C9 witness: `cid` carries a non-numeric `golsper90`; all three
operations fail on it, and the absent key of `dan` defaults to 0. -/
theorem spec_C9_witness :
    (radarMetrics cid.estatisticas).isOk = false
    ∧ (criar_grafico_comparativo ana [ana, cid] metricasComparacao).isOk = false
    ∧ (sortJogadores .gols [cid]).isOk = false
    ∧ pyFloat (statGet dan.estatisticas "golsper90") = .ok 0 := by
  have H := spec_C9 "abc".toList cid.estatisticas (by rfl)
  exact ⟨H.1, H.2.1 ana cid [ana, cid] (by decide) (by decide) rfl,
    H.2.2.1 [cid] cid (by decide) rfl, H.2.2.2 dan.estatisticas rfl⟩

/-- C3: when the list contains the selected player's id exactly once and
all requested metrics coerce, the comparison builder returns exactly one
row per peer (players whose id differs from the selected id), each row
carrying name, team, position and the metric values, `none` when the peer
set is empty — and no row comes from the selected player's id. -/
theorem spec_C3 (atual : Jogador) (js : List Jogador) (metricas : List String)
    (h1 : (js.map Jogador.id).count atual.id = 1)
    (h2 : ∀ j ∈ js, ∀ m ∈ metricas, (chaveStat m j).isOk = true) :
    criar_grafico_comparativo atual js metricas =
      .ok (if (js.filter (fun j => j.id != atual.id)).isEmpty then none
           else some ((js.filter (fun j => j.id != atual.id)).map
             (linhaCompD metricas)))
    ∧ ∀ j ∈ js.filter (fun j => j.id != atual.id), j.id ≠ atual.id := by
  have hmem : atual.id ∈ js.map Jogador.id :=
    List.count_pos_iff.mp (by rw [h1]; exact Nat.one_pos)
  have hne : js ≠ [] := by
    rintro rfl
    simp at hmem
  have hje : js.isEmpty = false := List.isEmpty_eq_false.mpr hne
  constructor
  · unfold criar_grafico_comparativo
    rw [hje]
    simp only [Bool.false_eq_true, if_false]
    have hrows : (js.filter (fun j => j.id != atual.id)).mapM (linhaComp metricas) =
        .ok ((js.filter (fun j => j.id != atual.id)).map (linhaCompD metricas)) := by
      apply mapM_ok_of_forall
      intro j hjf
      have hjs : j ∈ js := List.mem_of_mem_filter hjf
      unfold linhaComp linhaCompD
      rw [mapM_ok_of_forall (g := fun m => ((m : String), chaveStatD m j))
        (fun m hm => ?inner)]
      · rfl
      case inner =>
        have hok := h2 j hjs m hm
        cases hc : chaveStat m j with
        | error e => rw [hc] at hok; simp at hok
        | ok q =>
          have hq : chaveStatD m j = q := by
            simp [chaveStatD, hc, Except.toOption]
          have hpf : pyFloat (statGet j.estatisticas m) = .ok q := hc
          rw [hpf]
          show Except.ok (m, q) = Except.ok (m, chaveStatD m j)
          rw [hq]
    rw [hrows]
    simp only [ok_bind]
    have hie : ((js.filter (fun j => j.id != atual.id)).map
        (linhaCompD metricas)).isEmpty =
        (js.filter (fun j => j.id != atual.id)).isEmpty := by
      cases js.filter (fun j => j.id != atual.id) <;> simp
    rw [hie]
  · intro j hjf
    have hb := List.of_mem_filter hjf
    simpa using hb

/-- C3 witness: the scenario list `[ana, bea]` with Ana selected yields
exactly the row for Bea. -/
theorem spec_C3_witness :
    criar_grafico_comparativo ana [ana, bea] metricasComparacao =
      .ok (if (([ana, bea].filter (fun j => j.id != ana.id))).isEmpty then none
           else some (([ana, bea].filter (fun j => j.id != ana.id)).map
             (linhaCompD metricasComparacao)))
    ∧ ∀ j ∈ [ana, bea].filter (fun j => j.id != ana.id), j.id ≠ ana.id :=
  spec_C3 ana [ana, bea] metricasComparacao (by decide) (by decide)

/-- C2: the sort step is a stable sort (elements sharing a sort key keep
their original relative order, stated as filter invariance, and the
output is a permutation of the input): Name sorts names ascending
lexicographically; Team (resp. Position) sorts by (team, name)
(resp. (position, name)) ascending; Goals, Assists and Matches sort the
corresponding statistic non-increasingly, with a missing value read
as 0. -/
theorem spec_C2 (js : List Jogador) :
    (∀ r, sortJogadores .nome js = .ok r →
      r.Perm js
      ∧ r.Pairwise (fun a b => a.nome ≤ b.nome)
      ∧ ∀ k : Str, r.filter (fun x => decide (x.nome = k)) =
          js.filter (fun x => decide (x.nome = k)))
    ∧ (∀ r, sortJogadores .time js = .ok r →
      r.Perm js
      ∧ r.Pairwise (fun a b =>
          a.time < b.time ∨ (a.time = b.time ∧ a.nome ≤ b.nome))
      ∧ ∀ k : Lex (Str × Str),
          r.filter (fun x => decide (toLex (x.time, x.nome) = k)) =
          js.filter (fun x => decide (toLex (x.time, x.nome) = k)))
    ∧ (∀ r, sortJogadores .posicao js = .ok r →
      r.Perm js
      ∧ r.Pairwise (fun a b =>
          a.posicao < b.posicao ∨ (a.posicao = b.posicao ∧ a.nome ≤ b.nome))
      ∧ ∀ k : Lex (Str × Str),
          r.filter (fun x => decide (toLex (x.posicao, x.nome) = k)) =
          js.filter (fun x => decide (toLex (x.posicao, x.nome) = k)))
    ∧ (∀ r, sortJogadores .gols js = .ok r →
      r.Perm js
      ∧ r.Pairwise (fun a b =>
          chaveStatD "golsper90" b ≤ chaveStatD "golsper90" a)
      ∧ ∀ q : ℚ, r.filter (fun x => decide (chaveStatD "golsper90" x = q)) =
          js.filter (fun x => decide (chaveStatD "golsper90" x = q)))
    ∧ (∀ r, sortJogadores .assistencias js = .ok r →
      r.Perm js
      ∧ r.Pairwise (fun a b =>
          chaveStatD "assistper90" b ≤ chaveStatD "assistper90" a)
      ∧ ∀ q : ℚ, r.filter (fun x => decide (chaveStatD "assistper90" x = q)) =
          js.filter (fun x => decide (chaveStatD "assistper90" x = q)))
    ∧ (∀ r, sortJogadores .partidas js = .ok r →
      r.Perm js
      ∧ r.Pairwise (fun a b =>
          chaveStatD "partidas" b ≤ chaveStatD "partidas" a)
      ∧ ∀ q : ℚ, r.filter (fun x => decide (chaveStatD "partidas" x = q)) =
          js.filter (fun x => decide (chaveStatD "partidas" x = q)))
    ∧ ∀ (j : Jogador) (k : String), j.estatisticas.lookup k = none →
        chaveStatD k j = 0 := by
  refine ⟨?_, ?_, ?_, ?_, ?_, ?_, ?_⟩
  · intro r hr
    have hr' : pySortKey (fun j => j.nome) false js = r := by
      simpa [sortJogadores] using hr
    subst hr'
    exact ⟨pySortKey_perm _ _ _, pySortKey_sorted_le _ _,
      fun k => pySortKey_stable _ _ _ _ (fun a b ha hb => by
        simp only [decide_eq_true_eq] at ha hb
        rw [ha, hb])⟩
  · intro r hr
    have hr' : pySortKey (fun j => toLex (j.time, j.nome)) false js = r := by
      simpa [sortJogadores] using hr
    subst hr'
    refine ⟨pySortKey_perm _ _ _, ?_, fun k => pySortKey_stable _ _ _ _
      (fun a b ha hb => by
        simp only [decide_eq_true_eq] at ha hb
        rw [ha, hb])⟩
    exact (pySortKey_sorted_le (fun j : Jogador => toLex (j.time, j.nome)) js).imp
      (fun h => by simpa using (Prod.Lex.le_iff _ _).mp h)
  · intro r hr
    have hr' : pySortKey (fun j => toLex (j.posicao, j.nome)) false js = r := by
      simpa [sortJogadores] using hr
    subst hr'
    refine ⟨pySortKey_perm _ _ _, ?_, fun k => pySortKey_stable _ _ _ _
      (fun a b ha hb => by
        simp only [decide_eq_true_eq] at ha hb
        rw [ha, hb])⟩
    exact (pySortKey_sorted_le (fun j : Jogador => toLex (j.posicao, j.nome)) js).imp
      (fun h => by simpa using (Prod.Lex.le_iff _ _).mp h)
  · intro r hr
    simp only [sortJogadores] at hr
    cases hmm : js.mapM (chaveStat "golsper90") with
    | error e => rw [hmm] at hr; simp at hr
    | ok v =>
      rw [hmm] at hr
      simp only [exmap_ok] at hr
      have hr' : pySortKey (chaveStatD "golsper90") true js = r := by
        simpa using hr
      subst hr'
      exact ⟨pySortKey_perm _ _ _, pySortKey_sorted_ge _ _,
        fun q => pySortKey_stable _ _ _ _ (fun a b ha hb => by
          simp only [decide_eq_true_eq] at ha hb
          rw [ha, hb])⟩
  · intro r hr
    simp only [sortJogadores] at hr
    cases hmm : js.mapM (chaveStat "assistper90") with
    | error e => rw [hmm] at hr; simp at hr
    | ok v =>
      rw [hmm] at hr
      simp only [exmap_ok] at hr
      have hr' : pySortKey (chaveStatD "assistper90") true js = r := by
        simpa using hr
      subst hr'
      exact ⟨pySortKey_perm _ _ _, pySortKey_sorted_ge _ _,
        fun q => pySortKey_stable _ _ _ _ (fun a b ha hb => by
          simp only [decide_eq_true_eq] at ha hb
          rw [ha, hb])⟩
  · intro r hr
    simp only [sortJogadores] at hr
    cases hmm : js.mapM (chaveStat "partidas") with
    | error e => rw [hmm] at hr; simp at hr
    | ok v =>
      rw [hmm] at hr
      simp only [exmap_ok] at hr
      have hr' : pySortKey (chaveStatD "partidas") true js = r := by
        simpa using hr
      subst hr'
      exact ⟨pySortKey_perm _ _ _, pySortKey_sorted_ge _ _,
        fun q => pySortKey_stable _ _ _ _ (fun a b ha hb => by
          simp only [decide_eq_true_eq] at ha hb
          rw [ha, hb])⟩
  · intro j k hk
    simp [chaveStatD, chaveStat, statGet, hk, pyFloat, Except.toOption]

/-- C2 witness: sorting the scenario list by Goals puts Bea (1.2 per 90)
before Ana (0.5 per 90); the result is a permutation, non-increasing on
the statistic, and leaves the key-0.5 subsequence untouched. -/
theorem spec_C2_witness :
    ([bea, ana].Perm [ana, bea]
     ∧ [bea, ana].Pairwise (fun a b =>
         chaveStatD "golsper90" b ≤ chaveStatD "golsper90" a)
     ∧ [bea, ana].filter
         (fun x => decide (chaveStatD "golsper90" x = Rat.divInt 1 2)) =
       [ana, bea].filter
         (fun x => decide (chaveStatD "golsper90" x = Rat.divInt 1 2))) := by
  have H := (spec_C2 [ana, bea]).2.2.2.1 [bea, ana] (by rfl)
  exact ⟨H.1, H.2.1, H.2.2 (Rat.divInt 1 2)⟩

end StatFut
